import Mathlib

/-!
Verification of the SNA classification-and-drift pipeline.

Shallow embedding of the core modules of the repository:
`sna/core/logs.py` (LogAnalyzer), `sna/core/scoring.py` (SeverityScorer),
`sna/core/security.py` (SecurityCollector), `sna/core/recommendations.py`
(RecommendationsEngine) and `sna/baseline/baseline_manager.py`
(BaselineManager).

Modelling conventions:
* Python strings are Lean `String`s, but all text processing is done on the
  underlying `List Char` with structural-recursive helpers, so that every
  definition evaluates inside the kernel.
* Python `int` counters are Lean `Int`; usage percentages (which may be
  floats produced by the collectors) are modelled as `ℚ`, on which the
  comparisons performed by the code are exact.
* Python dicts with a fixed key set become structures; a key that may be
  absent becomes an `Option` field.  Wall-clock timestamps are passed in
  explicitly as opaque strings.
* The baseline directory is modelled as an association list from file stem
  to stored record; `save` overwrites the entry with the same stem, `load`
  looks the stem up, and listing filters the stems against the
  `baseline_*.json` glob pattern used by the code.
-/

namespace SNA

/-! ### Character and string helpers (kernel-computable) -/

/-- Python `str.split(sep)` on a single character separator. -/
def splitOnChar (sep : Char) : List Char → List (List Char)
  | [] => [[]]
  | c :: cs =>
    match splitOnChar sep cs with
    | [] => [[]]
    | r :: rs => if c = sep then [] :: r :: rs else (c :: r) :: rs

/-- Whitespace characters stripped by Python `str.strip()`. -/
def isPySpace (c : Char) : Bool :=
  c = ' ' || c = '\t' || c = '\n' || c = '\r' || c = '\x0b' || c = '\x0c'

/-- Python `str.strip()`. -/
def pyStrip (l : List Char) : List Char :=
  ((l.dropWhile isPySpace).reverse.dropWhile isPySpace).reverse

/-- Python `needle in haystack` substring containment. -/
def containsSub (needle : List Char) : List Char → Bool
  | [] => needle.isEmpty
  | c :: cs => needle.isPrefixOf (c :: cs) || containsSub needle cs

/-- Python `str.lower()` (ASCII, which is all the code ever feeds it). -/
def lowerChars (l : List Char) : List Char := l.map Char.toLower

/-- The regex class `[a-z]`. -/
def isLowerAZ (c : Char) : Bool := decide (97 ≤ c.toNat) && decide (c.toNat ≤ 122)

/-- The regex class `[0-9]`. -/
def isDigit09 (c : Char) : Bool := decide (48 ≤ c.toNat) && decide (c.toNat ≤ 57)

/-- The regex class `[a-z0-9-]`. -/
def isTokChar (c : Char) : Bool := isLowerAZ c || isDigit09 c || c = '-'

/-- The regex class `[:\s]`. -/
def isDelimCh (c : Char) : Bool := c = ':' || isPySpace c

/-- Lexicographic (code-point) order on character lists, the order Python
uses to compare and sort strings: `lexLe a b` is `a <= b`. -/
def lexLe : List Char → List Char → Bool
  | [], _ => true
  | _ :: _, [] => false
  | a :: as, b :: bs => if a < b then true else if b < a then false else lexLe as bs

/-- Strict lexicographic (code-point) order on character lists. -/
def lexLt : List Char → List Char → Bool
  | [], [] => false
  | [], _ :: _ => true
  | _ :: _, [] => false
  | a :: as, b :: bs => if a < b then true else if b < a then false else lexLt as bs

/-- Python `a <= b` on strings. -/
def strLe (a b : String) : Prop := lexLe a.data b.data = true

/-- Python `a < b` on strings. -/
def strLt (a b : String) : Prop := lexLt a.data b.data = true

instance : DecidableRel strLe := fun a b => by unfold strLe; infer_instance

instance : DecidableRel strLt := fun a b => by unfold strLt; infer_instance

/-- Python `abs` on a number, written so that it evaluates inside the
kernel (the lattice-derived `abs` on `ℚ` does not reduce there). -/
def pyAbs (q : ℚ) : ℚ := if q < 0 then -q else q

/-- Python `sorted` on a list of strings (ascending code-point
lexicographic order; the sorted rearrangement of a duplicate-free list is
unique, so any correct sort models it). -/
def pySorted (l : List String) : List String := List.insertionSort strLe l

/-! ### `sna/core/logs.py` : LogAnalyzer -/

namespace LogAnalyzer

/-- The analysis record built by `LogAnalyzer.analyze`: Python int counters
and the list of implicated service names. -/
structure LogAnalysis where
  failed_ssh_logins : Int
  authentication_failures : Int
  service_errors : List String
  auth_warnings : Int
  permission_denied : Int
  segfaults : Int
  kernel_errors : Int
  sudo_misuse : Int
  service_restarts : Int
deriving Repr, DecidableEq

/-- The all-zero record returned for empty input and used as the initial
accumulator. -/
def emptyAnalysis : LogAnalysis :=
  { failed_ssh_logins := 0
    authentication_failures := 0
    service_errors := []
    auth_warnings := 0
    permission_denied := 0
    segfaults := 0
    kernel_errors := 0
    sudo_misuse := 0
    service_restarts := 0 }

/-- The `known_services` allow-list. -/
def known_services : List String :=
  ["apache2", "nginx", "mysql", "postgresql", "systemd", "ssh", "sshd",
   "cron", "rsyslog", "network", "dbus", "polkit", "systemd-logind"]

/-- Leftmost match of the regex `([a-z][a-z0-9-]+)\.service[:\s]`,
returning the captured group.  The tail `.service` begins with a character
outside `[a-z0-9-]`, so the greedy run never backtracks: the maximal token
run starting at each candidate position is the only run the regex engine
can accept there. -/
def findServiceToken : List Char → Option (List Char)
  | [] => none
  | c :: cs =>
    if isLowerAZ c then
      let run := (c :: cs).takeWhile isTokChar
      let rest := (c :: cs).dropWhile isTokChar
      if 2 ≤ run.length &&
         ".service".data.isPrefixOf rest &&
         (match rest.drop 8 with
          | d :: _ => isDelimCh d
          | [] => false) then
        some run
      else findServiceToken cs
    else findServiceToken cs

/-- Append a service name if non-empty and not already recorded (the
`if service and service not in ...: append` idiom). -/
def pushService (a : LogAnalysis) (s : String) : LogAnalysis :=
  if s ≠ "" ∧ s ∉ a.service_errors then
    { a with service_errors := a.service_errors ++ [s] }
  else a

/-- Authentication-section rule: failed password / authentication failure. -/
def authFailedUpd (a : LogAnalysis) (ll : List Char) : LogAnalysis :=
  if containsSub "failed password".data ll || containsSub "authentication failure".data ll then
    { a with failed_ssh_logins := a.failed_ssh_logins + 1
             authentication_failures := a.authentication_failures + 1 }
  else a

/-- Authentication-section rule: permission denied. -/
def authPermUpd (a : LogAnalysis) (ll : List Char) : LogAnalysis :=
  if containsSub "permission denied".data ll then
    { a with permission_denied := a.permission_denied + 1 }
  else a

/-- Authentication-section rule: warning co-occurring with auth/ssh. -/
def authWarnUpd (a : LogAnalysis) (ll : List Char) : LogAnalysis :=
  if containsSub "warning".data ll &&
     (containsSub "auth".data ll || containsSub "ssh".data ll) then
    { a with auth_warnings := a.auth_warnings + 1 }
  else a

/-- Authentication-section rule: sudo co-occurring with failed/incorrect. -/
def authSudoUpd (a : LogAnalysis) (ll : List Char) : LogAnalysis :=
  if containsSub "sudo".data ll &&
     (containsSub "failed".data ll || containsSub "incorrect".data ll) then
    { a with sudo_misuse := a.sudo_misuse + 1 }
  else a

/-- All authentication-section updates of one line, in source order. -/
def authUpdates (a : LogAnalysis) (ll : List Char) : LogAnalysis :=
  authSudoUpd (authWarnUpd (authPermUpd (authFailedUpd a ll) ll) ll) ll

/-- System-section rule: permission denied. -/
def sysPermUpd (a : LogAnalysis) (ll : List Char) : LogAnalysis :=
  if containsSub "permission denied".data ll then
    { a with permission_denied := a.permission_denied + 1 }
  else a

/-- System-section rule: segfault / segmentation fault. -/
def sysSegfUpd (a : LogAnalysis) (ll : List Char) : LogAnalysis :=
  if containsSub "segfault".data ll || containsSub "segmentation fault".data ll then
    { a with segfaults := a.segfaults + 1 }
  else a

/-- System-section rule: kernel co-occurring with error/fail. -/
def sysKernUpd (a : LogAnalysis) (ll : List Char) : LogAnalysis :=
  if containsSub "kernel".data ll &&
     (containsSub "error".data ll || containsSub "fail".data ll) then
    { a with kernel_errors := a.kernel_errors + 1 }
  else a

/-- System-section rule: restart/stopped of a known service. -/
def sysRestartUpd (a : LogAnalysis) (ll : List Char) : LogAnalysis :=
  if (containsSub "restart".data ll || containsSub "stopped".data ll) &&
     known_services.any (fun svc => containsSub svc.data ll) then
    { a with service_restarts := a.service_restarts + 1 }
  else a

/-- System-section rule: the `<token>.service` regex extraction. -/
def sysRegexUpd (a : LogAnalysis) (ll : List Char) : LogAnalysis :=
  match findServiceToken ll with
  | some run => pushService a (String.mk run)
  | none => a

/-- One iteration of the allow-list loop: record `name` when it occurs in
the lowercased line alongside an error/fail keyword and is not yet
recorded. -/
def knownStep (ll : List Char) (acc : LogAnalysis) (name : String) : LogAnalysis :=
  if containsSub name.data ll &&
     (containsSub "error".data ll || containsSub "fail".data ll) &&
     !(decide (name ∈ acc.service_errors)) then
    { acc with service_errors := acc.service_errors ++ [name] }
  else acc

/-- System-section rule: allow-list names alongside an error/fail keyword. -/
def sysKnownUpd (a : LogAnalysis) (ll : List Char) : LogAnalysis :=
  known_services.foldl (knownStep ll) a

/-- All system-section updates of one line, in source order. -/
def sysUpdates (a : LogAnalysis) (ll : List Char) : LogAnalysis :=
  sysKnownUpd (sysRegexUpd (sysRestartUpd (sysKernUpd (sysSegfUpd (sysPermUpd a ll) ll) ll) ll) ll) ll

/-- Loop state of `LogAnalyzer.analyze`: the two section flags and the
accumulated record. -/
structure LoopState where
  auth_section : Bool
  sys_section : Bool
  a : LogAnalysis

/-- One iteration of the line loop in `LogAnalyzer.analyze`. -/
def processLine (st : LoopState) (line : List Char) : LoopState :=
  let stripped := pyStrip line
  if stripped.isEmpty || "===".data.isPrefixOf stripped then st
  else if containsSub "AUTHENTICATION LOG".data line then
    { st with auth_section := true, sys_section := false }
  else if containsSub "SYSTEM ERROR LOG".data line then
    { st with auth_section := false, sys_section := true }
  else
    let ll := lowerChars line
    let a := if st.auth_section then authUpdates st.a ll else st.a
    let a := if st.sys_section then sysUpdates a ll else a
    { st with a := a }

/-- `LogAnalyzer.analyze`: empty text short-circuits to the zero record;
otherwise the line loop runs and `service_errors` is finally replaced by
`sorted(list(set(...)))`. -/
def analyze (log_text : String) : LogAnalysis :=
  if log_text = "" then emptyAnalysis
  else
    let lines := splitOnChar '\n' log_text.data
    let st := lines.foldl processLine ⟨false, false, emptyAnalysis⟩
    { st.a with service_errors := pySorted st.a.service_errors.dedup }

/-- A pure numeric token: non-empty, all characters decimal digits. -/
def isNumericToken (s : String) : Bool := !s.data.isEmpty && s.data.all isDigit09

/-- Every service name the analyzer records either starts with a lowercase
letter (the regex capture) or comes from the allow-list. -/
def GoodName (s : String) : Prop :=
  (∃ c cs, s.data = c :: cs ∧ isLowerAZ c = true) ∨ s ∈ known_services

/-- Loop invariant of the analyzer record: the two authentication counters
move in lockstep, every recorded service name is well-formed, and all
counters are non-negative. -/
def Inv (a : LogAnalysis) : Prop :=
  a.failed_ssh_logins = a.authentication_failures ∧
  (∀ s ∈ a.service_errors, GoodName s) ∧
  0 ≤ a.failed_ssh_logins ∧ 0 ≤ a.authentication_failures ∧ 0 ≤ a.auth_warnings ∧
  0 ≤ a.permission_denied ∧ 0 ≤ a.segfaults ∧ 0 ≤ a.kernel_errors ∧
  0 ≤ a.sudo_misuse ∧ 0 ≤ a.service_restarts

end LogAnalyzer

/-! ### Findings and `sna/core/scoring.py` : SeverityScorer -/

/-- A finding's `value` payload: the code stores either a number or a
string there. -/
inductive Val where
  | num (q : ℚ)
  | str (s : String)
deriving Repr, DecidableEq

/-- A finding dict.  The key set varies between producers, so every key
that some producer omits is an `Option` field. -/
structure Finding where
  severity : String
  metric : Option String := none
  value : Option Val := none
  title : Option String := none
  description : Option String := none
  recommendation : Option String := none
deriving Repr, DecidableEq

/-- Health snapshot slice read by the scorer: the three `usage_percent`
values (`.get(..., 0)` defaults are the collectors' concern; the record is
always fully populated here). -/
structure HealthData where
  cpu_usage : ℚ
  memory_usage : ℚ
  disk_usage : ℚ
deriving Repr, DecidableEq

/-- SSH configuration record; each key holds `"yes"`, `"no"`, `"unknown"`
or is absent. -/
structure SshConfig where
  root_login_enabled : Option String := none
  password_auth_enabled : Option String := none
deriving Repr, DecidableEq

namespace SeverityScorer

open LogAnalyzer

/-- `SeverityScorer.score_health`. -/
def score_health (health_data : HealthData) : List Finding :=
  let cpu_pct := health_data.cpu_usage
  let mem_pct := health_data.memory_usage
  let disk_pct := health_data.disk_usage
  (if cpu_pct ≥ 90 then [{ severity := "CRITICAL", metric := some "CPU", value := some (.num cpu_pct) }]
   else if cpu_pct ≥ 80 then [{ severity := "HIGH", metric := some "CPU", value := some (.num cpu_pct) }]
   else if cpu_pct ≥ 60 then [{ severity := "MEDIUM", metric := some "CPU", value := some (.num cpu_pct) }]
   else []) ++
  (if mem_pct ≥ 90 then [{ severity := "CRITICAL", metric := some "Memory", value := some (.num mem_pct) }]
   else if mem_pct ≥ 80 then [{ severity := "HIGH", metric := some "Memory", value := some (.num mem_pct) }]
   else if mem_pct ≥ 75 then [{ severity := "MEDIUM", metric := some "Memory", value := some (.num mem_pct) }]
   else []) ++
  (if disk_pct ≥ 90 then [{ severity := "CRITICAL", metric := some "Disk", value := some (.num disk_pct) }]
   else if disk_pct ≥ 85 then [{ severity := "HIGH", metric := some "Disk", value := some (.num disk_pct) }]
   else if disk_pct ≥ 75 then [{ severity := "MEDIUM", metric := some "Disk", value := some (.num disk_pct) }]
   else [])

/-- `SeverityScorer.score_security`. -/
def score_security (ssh_config : SshConfig) : List Finding :=
  (if ssh_config.root_login_enabled = some "yes" then
    [{ severity := "HIGH", metric := some "SSH Root Login", value := some (.str "Enabled") }]
   else []) ++
  (if ssh_config.password_auth_enabled = some "yes" then
    [{ severity := "MEDIUM", metric := some "SSH Password Auth", value := some (.str "Enabled") }]
   else [])

/-- `SeverityScorer.score_logs`. -/
def score_logs (log_analysis : LogAnalysis) : List Finding :=
  let failed_logins := log_analysis.failed_ssh_logins
  (if failed_logins > 20 then
    [{ severity := "HIGH", metric := some "Failed Logins", value := some (.num failed_logins) }]
   else if failed_logins > 10 then
    [{ severity := "MEDIUM", metric := some "Failed Logins", value := some (.num failed_logins) }]
   else []) ++
  (if log_analysis.service_errors.length ≥ 1 then
    [{ severity := "MEDIUM", metric := some "Service Errors",
       value := some (.num log_analysis.service_errors.length) }]
   else []) ++
  (if log_analysis.kernel_errors ≥ 1 then
    [{ severity := "HIGH", metric := some "Kernel Errors", value := some (.num log_analysis.kernel_errors) }]
   else []) ++
  (if log_analysis.segfaults > 0 then
    [{ severity := "HIGH", metric := some "Segfaults", value := some (.num log_analysis.segfaults) }]
   else [])

/-- `SeverityScorer.compute_overall_severity`: the Python truthiness filter
keeps exactly the non-empty severity strings. -/
def compute_overall_severity (all_findings : List Finding) : String :=
  let severities := all_findings.filterMap
    (fun f => if f.severity = "" then none else some f.severity)
  if "CRITICAL" ∈ severities then "CRITICAL"
  else if "HIGH" ∈ severities then "HIGH"
  else if "MEDIUM" ∈ severities then "MEDIUM"
  else if all_findings.length > 0 then "LOW"
  else "LOW"

/-- Per-finding weight of `compute_risk_score` (the `elif` chain; a
severity outside the four tags adds nothing). -/
def sevWeight (severity : String) : Int :=
  if severity = "CRITICAL" then 30
  else if severity = "HIGH" then 15
  else if severity = "MEDIUM" then 8
  else if severity = "LOW" then 2
  else 0

/-- `SeverityScorer.compute_risk_score`; `none` models passing Python
`None` for `log_analysis`. -/
def compute_risk_score (all_findings : List Finding) (log_analysis : Option LogAnalysis) : Int :=
  let score := all_findings.foldl (fun s f => s + sevWeight f.severity) 0
  let score :=
    match log_analysis with
    | none => score
    | some la =>
      let score := if la.failed_ssh_logins > 0 then score + 3 else score
      let score := if la.service_errors.length > 0 then score + 5 else score
      let score := if la.kernel_errors > 0 then score + 10 else score
      let score := if la.auth_warnings > 0 then score + 2 else score
      score
  min score 100

/-- Spec-side per-finding weight table: CRITICAL=30, HIGH=15, MEDIUM=8,
LOW=2. -/
def specWeight (severity : String) : Int :=
  if severity = "CRITICAL" then 30
  else if severity = "HIGH" then 15
  else if severity = "MEDIUM" then 8
  else 2

/-- Spec-side log-derived bonuses: +3 for any failed login, +5 for a
non-empty service-error list, +10 for any kernel error, +2 for any auth
warning. -/
def logBonus (la : LogAnalysis) : Int :=
  (if 0 < la.failed_ssh_logins then 3 else 0) +
  (if la.service_errors ≠ [] then 5 else 0) +
  (if 0 < la.kernel_errors then 10 else 0) +
  (if 0 < la.auth_warnings then 2 else 0)

/-- Spec-side severity rank: CRITICAL > HIGH > MEDIUM > LOW. -/
def sevRank (severity : String) : Nat :=
  if severity = "CRITICAL" then 3
  else if severity = "HIGH" then 2
  else if severity = "MEDIUM" then 1
  else 0

/-- Severity tag of a rank. -/
def rankName (n : Nat) : String :=
  if n = 3 then "CRITICAL" else if n = 2 then "HIGH" else if n = 1 then "MEDIUM" else "LOW"

/-- Spec-side aggregate: the maximum severity rank over the findings,
`0` (LOW) for the empty list. -/
def maxRank (fs : List Finding) : Nat :=
  (fs.map (fun f => sevRank f.severity)).foldr max 0

end SeverityScorer

/-! ### `sna/core/security.py` : SecurityCollector -/

namespace SecurityCollector

/-- `SecurityCollector.analyze_ssh_risks`. -/
def analyze_ssh_risks (ssh_config : SshConfig) : List Finding :=
  (if ssh_config.root_login_enabled = some "yes" then
    [{ severity := "HIGH",
       title := some "SSH Root Login Enabled",
       description := some "Root login via SSH is enabled. This is a significant security risk.",
       recommendation := some "Disable root SSH login by setting 'PermitRootLogin no' in /etc/ssh/sshd_config" }]
   else []) ++
  (if ssh_config.password_auth_enabled = some "yes" then
    [{ severity := "MEDIUM",
       title := some "SSH Password Authentication Enabled",
       description := some "Password authentication is enabled. Key-based authentication is more secure.",
       recommendation := some "Consider disabling password authentication and using SSH keys only" }]
   else [])

end SecurityCollector

/-! ### `sna/core/recommendations.py` : RecommendationsEngine -/

namespace RecommendationsEngine

/-- The `recommendation_templates` dict. -/
def recommendation_templates : List (String × String) :=
  [("cpu_high", "Investigate high CPU usage - check running processes and consider resource optimization"),
   ("memory_high", "Review memory usage - identify memory-intensive processes and consider adding swap or RAM"),
   ("disk_high", "Disk space is running low - clean up old logs, temporary files, or unused packages"),
   ("ssh_root", "Disable root SSH login for better security - edit /etc/ssh/sshd_config"),
   ("ssh_password", "Consider disabling password authentication and using SSH keys only"),
   ("failed_logins", "Review authentication logs and consider implementing Fail2Ban to prevent brute force attacks"),
   ("service_errors", "Investigate service errors - check service status and logs for misconfiguration"),
   ("kernel_errors", "Kernel errors detected - investigate hardware, drivers, or system stability issues"),
   ("segfaults", "Application crashes detected - review application logs and check for memory issues")]

/-- Python `self.recommendation_templates.get(key, dflt)`. -/
def templateGet (key dflt : String) : String :=
  (recommendation_templates.lookup key).getD dflt

/-- The recommendation string chosen for one finding (the keyword
`elif` chain over the lowercased metric). -/
def findingRec (finding : Finding) : String :=
  let metric := lowerChars (finding.metric.getD "").data
  if containsSub "cpu".data metric then templateGet "cpu_high" "Review CPU usage"
  else if containsSub "memory".data metric then templateGet "memory_high" "Review memory usage"
  else if containsSub "disk".data metric then templateGet "disk_high" "Review disk usage"
  else if containsSub "root".data metric && containsSub "ssh".data metric then
    templateGet "ssh_root" "Review SSH configuration"
  else if containsSub "password".data metric && containsSub "ssh".data metric then
    templateGet "ssh_password" "Review SSH authentication"
  else if containsSub "login".data metric || containsSub "auth".data metric then
    templateGet "failed_logins" "Review authentication logs"
  else if containsSub "service".data metric then templateGet "service_errors" "Review service status"
  else if containsSub "kernel".data metric then templateGet "kernel_errors" "Investigate kernel issues"
  else if containsSub "segfault".data metric || containsSub "crash".data metric then
    templateGet "segfaults" "Investigate application crashes"
  else finding.recommendation.getD ("Review " ++ finding.title.getD "issue")

/-- The `if rec and rec not in seen` accumulation step shared by both
loops of `generate`; the state is `(recommendations, seen)`. -/
def recStep (st : List String × List String) (rec : String) : List String × List String :=
  if rec ≠ "" ∧ rec ∉ st.2 then (st.1 ++ [rec], rec :: st.2) else st

/-- The fixed `baseline_recs` list. -/
def baseline_recs : List String :=
  ["Schedule periodic audits using cron for continuous monitoring",
   "Maintain baseline snapshots after system updates or configuration changes",
   "Continue monitoring authentication logs for unusual patterns",
   "Review system health metrics regularly to detect trends"]

/-- `RecommendationsEngine.generate`; the Python default for
`always_include_baseline` is `true`. -/
def generate (findings : List Finding) (always_include_baseline : Bool) : List String :=
  let st := findings.foldl (fun st f => recStep st (findingRec f)) ([], [])
  let st := if always_include_baseline then baseline_recs.foldl recStep st else st
  st.1

/-- Invariant of the `(recommendations, seen)` pair: the output list is
duplicate-free and tracks the seen set exactly. -/
def RecInv (st : List String × List String) : Prop :=
  st.1.Nodup ∧ ∀ r, r ∈ st.1 ↔ r ∈ st.2

end RecommendationsEngine

/-! ### `sna/baseline/baseline_manager.py` : BaselineManager -/

namespace BaselineManager

/-- The slice of the collected system data that `save` and `compare`
read: health percentages, the comma-joined active-services string, the
logged-in user count and the SSH configuration. -/
structure SystemData where
  health : HealthData
  active_count : Int
  active_services : String
  logged_in_count : Int
  ssh_config : SshConfig
deriving Repr, DecidableEq

/-- A persisted baseline record (one `<name>.json` file). -/
structure Baseline where
  timestamp : String
  name : String
  cpu_usage : ℚ
  memory_usage : ℚ
  disk_usage : ℚ
  active_count : Int
  active_services : List String
  logged_in_count : Int
  ssh_root_login : String
  ssh_password_auth : String
deriving Repr, DecidableEq

/-- The baseline directory: file stem to stored record. -/
def Store := List (String × Baseline)

/-- Python `s.split(",") if s else []` used for the comma-joined
active-services string. -/
def splitServices (s : String) : List String :=
  if s = "" then [] else (splitOnChar ',' s.data).map String.mk

/-- The record `BaselineManager.save` persists (`datetime.now()` is passed
in as the opaque `ts`). -/
def mkBaseline (system_data : SystemData) (name ts : String) : Baseline :=
  { timestamp := ts
    name := name
    cpu_usage := system_data.health.cpu_usage
    memory_usage := system_data.health.memory_usage
    disk_usage := system_data.health.disk_usage
    active_count := system_data.active_count
    active_services := splitServices system_data.active_services
    logged_in_count := system_data.logged_in_count
    ssh_root_login := system_data.ssh_config.root_login_enabled.getD "unknown"
    ssh_password_auth := system_data.ssh_config.password_auth_enabled.getD "unknown" }

/-- `BaselineManager.save` with an explicit name: writes `<name>.json`,
overwriting a file with the same stem. -/
def save (store : Store) (system_data : SystemData) (name ts : String) : Store :=
  (name, mkBaseline system_data name ts) :: List.filter (fun p => p.1 != name) store

/-- `BaselineManager.load`: `None` when no `<name>.json` file exists. -/
def load (store : Store) (name : String) : Option Baseline :=
  List.lookup name store

/-- `BaselineManager.list_baselines`: the stems matching the
`baseline_*.json` glob, sorted. -/
def list_baselines (store : Store) : List String :=
  pySorted (((store : List (String × Baseline)).map Prod.fst).filter
    (fun n => "baseline_".data.isPrefixOf n.data))

/-- One entry of the drift change list. -/
inductive Change where
  | resourceSpike (metric : String) (baseline current change : ℚ)
  | diskGrowth (baseline current change : ℚ)
  | newServices (services : Finset String)
  | removedServices (services : Finset String)
  | userCountChange (baseline current : Int)
deriving DecidableEq

/-- The drift record returned by a successful comparison. -/
structure Drift where
  baseline_name : String
  baseline_timestamp : String
  comparison_timestamp : String
  changes : List Change
deriving DecidableEq

/-- Result of `BaselineManager.compare`: either the `{"error": ...}` dict
or a drift record. -/
inductive CompareResult where
  | error (msg : String)
  | ok (drift : Drift)
deriving DecidableEq

/-- `BaselineManager.compare` (reads the store, never writes it;
`datetime.now()` is the opaque `now_ts`). -/
def compare (store : Store) (current_data : SystemData) (baseline_name now_ts : String) :
    CompareResult :=
  match load store baseline_name with
  | none => .error ("Baseline '" ++ baseline_name ++ "' not found")
  | some baseline =>
    let changes : List Change := []
    let current_cpu := current_data.health.cpu_usage
    let baseline_cpu := baseline.cpu_usage
    let changes :=
      if pyAbs (current_cpu - baseline_cpu) > 10 then
        changes ++ [.resourceSpike "CPU" baseline_cpu current_cpu (current_cpu - baseline_cpu)]
      else changes
    let current_mem := current_data.health.memory_usage
    let baseline_mem := baseline.memory_usage
    let changes :=
      if pyAbs (current_mem - baseline_mem) > 10 then
        changes ++ [.resourceSpike "Memory" baseline_mem current_mem (current_mem - baseline_mem)]
      else changes
    let current_disk := current_data.health.disk_usage
    let baseline_disk := baseline.disk_usage
    let changes :=
      if current_disk > baseline_disk + 5 then
        changes ++ [.diskGrowth baseline_disk current_disk (current_disk - baseline_disk)]
      else changes
    let current_services := (splitServices current_data.active_services).toFinset
    let baseline_services := baseline.active_services.toFinset
    let new_services := current_services \ baseline_services
    let removed_services := baseline_services \ current_services
    let changes :=
      if new_services ≠ ∅ then changes ++ [.newServices new_services] else changes
    let changes :=
      if removed_services ≠ ∅ then changes ++ [.removedServices removed_services] else changes
    let current_users := current_data.logged_in_count
    let baseline_users := baseline.logged_in_count
    let changes :=
      if current_users ≠ baseline_users then
        changes ++ [.userCountChange baseline_users current_users]
      else changes
    .ok { baseline_name := baseline_name
          baseline_timestamp := baseline.timestamp
          comparison_timestamp := now_ts
          changes := changes }

end BaselineManager

/-! ### Facts about the code-point lexicographic order and `pySorted` -/

theorem lexLe_total : ∀ a b : List Char, lexLe a b = true ∨ lexLe b a = true
  | [], _ => Or.inl rfl
  | _ :: _, [] => Or.inr rfl
  | a :: as, b :: bs => by
    rcases lt_trichotomy a b with h | h | h
    · left; simp [lexLe, h]
    · subst h
      rcases lexLe_total as bs with h | h
      · left; simp [lexLe, lt_irrefl, h]
      · right; simp [lexLe, lt_irrefl, h]
    · right; simp [lexLe, h]

theorem lexLe_trans : ∀ a b c : List Char,
    lexLe a b = true → lexLe b c = true → lexLe a c = true
  | [], _, _ => fun _ _ => rfl
  | _ :: _, [], _ => fun h1 _ => by simp [lexLe] at h1
  | _ :: _, _ :: _, [] => fun _ h2 => by simp [lexLe] at h2
  | a :: as, b :: bs, c :: cs => fun h1 h2 => by
    simp only [lexLe] at h1 h2 ⊢
    rcases lt_trichotomy a b with hab | hab | hab
    · rcases lt_trichotomy b c with hbc | hbc | hbc
      · simp [lt_trans hab hbc]
      · subst hbc; simp [hab]
      · simp [hbc, asymm hbc] at h2
    · subst hab
      simp only [lt_irrefl, if_false] at h1
      rcases lt_trichotomy a c with hac | hac | hac
      · simp [hac]
      · subst hac
        simp only [lt_irrefl, if_false] at h2 ⊢
        exact lexLe_trans as bs cs h1 h2
      · simp [hac, asymm hac] at h2
    · simp [hab, asymm hab] at h1

theorem lexLt_of_lexLe_of_ne : ∀ a b : List Char,
    lexLe a b = true → a ≠ b → lexLt a b = true
  | [], [] => fun _ h => absurd rfl h
  | [], _ :: _ => fun _ _ => rfl
  | _ :: _, [] => fun h1 _ => by simp [lexLe] at h1
  | a :: as, b :: bs => fun h1 hne => by
    simp only [lexLe] at h1
    simp only [lexLt]
    rcases lt_trichotomy a b with hab | hab | hab
    · simp [hab]
    · subst hab
      simp only [lt_irrefl, if_false] at h1 ⊢
      exact lexLt_of_lexLe_of_ne as bs h1 (fun h => hne (by rw [h]))
    · simp [hab, asymm hab] at h1

instance : IsTotal String strLe := ⟨fun a b => lexLe_total a.data b.data⟩

instance : IsTrans String strLe := ⟨fun a b c => lexLe_trans a.data b.data c.data⟩

theorem strLt_of_strLe_of_ne {a b : String} (h : strLe a b) (hne : a ≠ b) : strLt a b :=
  lexLt_of_lexLe_of_ne a.data b.data h (fun hd => hne (String.ext hd))

theorem sorted_lt_of_sorted_le_nodup :
    ∀ l : List String, l.Sorted strLe → l.Nodup → l.Sorted strLt := by
  intro l
  induction l with
  | nil => intro _ _; exact List.sorted_nil
  | cons a l ih =>
    intro hs hn
    rw [List.sorted_cons] at hs ⊢
    rw [List.nodup_cons] at hn
    refine ⟨fun b hb => ?_, ih hs.2 hn.2⟩
    exact strLt_of_strLe_of_ne (hs.1 b hb) (fun h => hn.1 (h ▸ hb))

theorem pySorted_sorted_lt (l : List String) (hn : l.Nodup) :
    (pySorted l).Sorted strLt := by
  refine sorted_lt_of_sorted_le_nodup _ (List.sorted_insertionSort strLe l) ?_
  exact hn.perm (List.perm_insertionSort strLe l).symm

theorem pySorted_mem {l : List String} {s : String} :
    s ∈ pySorted l ↔ s ∈ l :=
  (List.perm_insertionSort strLe l).mem_iff

/-! ### Invariants of the log analyzer -/

namespace LogAnalyzer

theorem emptyAnalysis_inv : Inv emptyAnalysis := by
  refine ⟨rfl, fun s hs => ?_, by decide, by decide, by decide, by decide, by decide,
          by decide, by decide, by decide⟩
  simp [emptyAnalysis] at hs

theorem authFailedUpd_inv {a : LogAnalysis} (ll : List Char) (h : Inv a) :
    Inv (authFailedUpd a ll) := by
  unfold authFailedUpd; split
  · obtain ⟨h1, h2, h3⟩ := h
    exact ⟨by simp [h1], h2, by simp; omega, by simp; omega, by simp; omega,
           by simp; omega, by simp; omega, by simp; omega, by simp; omega, by simp; omega⟩
  · exact h

theorem authPermUpd_inv {a : LogAnalysis} (ll : List Char) (h : Inv a) :
    Inv (authPermUpd a ll) := by
  unfold authPermUpd; split
  · obtain ⟨h1, h2, h3⟩ := h
    exact ⟨by simp [h1], h2, by simp; omega, by simp; omega, by simp; omega,
           by simp; omega, by simp; omega, by simp; omega, by simp; omega, by simp; omega⟩
  · exact h

theorem authWarnUpd_inv {a : LogAnalysis} (ll : List Char) (h : Inv a) :
    Inv (authWarnUpd a ll) := by
  unfold authWarnUpd; split
  · obtain ⟨h1, h2, h3⟩ := h
    exact ⟨by simp [h1], h2, by simp; omega, by simp; omega, by simp; omega,
           by simp; omega, by simp; omega, by simp; omega, by simp; omega, by simp; omega⟩
  · exact h

theorem authSudoUpd_inv {a : LogAnalysis} (ll : List Char) (h : Inv a) :
    Inv (authSudoUpd a ll) := by
  unfold authSudoUpd; split
  · obtain ⟨h1, h2, h3⟩ := h
    exact ⟨by simp [h1], h2, by simp; omega, by simp; omega, by simp; omega,
           by simp; omega, by simp; omega, by simp; omega, by simp; omega, by simp; omega⟩
  · exact h

theorem authUpdates_inv {a : LogAnalysis} (ll : List Char) (h : Inv a) :
    Inv (authUpdates a ll) :=
  authSudoUpd_inv ll (authWarnUpd_inv ll (authPermUpd_inv ll (authFailedUpd_inv ll h)))

theorem sysPermUpd_inv {a : LogAnalysis} (ll : List Char) (h : Inv a) :
    Inv (sysPermUpd a ll) := by
  unfold sysPermUpd; split
  · obtain ⟨h1, h2, h3⟩ := h
    exact ⟨by simp [h1], h2, by simp; omega, by simp; omega, by simp; omega,
           by simp; omega, by simp; omega, by simp; omega, by simp; omega, by simp; omega⟩
  · exact h

theorem sysSegfUpd_inv {a : LogAnalysis} (ll : List Char) (h : Inv a) :
    Inv (sysSegfUpd a ll) := by
  unfold sysSegfUpd; split
  · obtain ⟨h1, h2, h3⟩ := h
    exact ⟨by simp [h1], h2, by simp; omega, by simp; omega, by simp; omega,
           by simp; omega, by simp; omega, by simp; omega, by simp; omega, by simp; omega⟩
  · exact h

theorem sysKernUpd_inv {a : LogAnalysis} (ll : List Char) (h : Inv a) :
    Inv (sysKernUpd a ll) := by
  unfold sysKernUpd; split
  · obtain ⟨h1, h2, h3⟩ := h
    exact ⟨by simp [h1], h2, by simp; omega, by simp; omega, by simp; omega,
           by simp; omega, by simp; omega, by simp; omega, by simp; omega, by simp; omega⟩
  · exact h

theorem sysRestartUpd_inv {a : LogAnalysis} (ll : List Char) (h : Inv a) :
    Inv (sysRestartUpd a ll) := by
  unfold sysRestartUpd; split
  · obtain ⟨h1, h2, h3⟩ := h
    exact ⟨by simp [h1], h2, by simp; omega, by simp; omega, by simp; omega,
           by simp; omega, by simp; omega, by simp; omega, by simp; omega, by simp; omega⟩
  · exact h

theorem pushService_inv {a : LogAnalysis} {s : String} (h : Inv a) (hs : GoodName s) :
    Inv (pushService a s) := by
  unfold pushService; split
  · obtain ⟨h1, h2, h3⟩ := h
    refine ⟨by simp [h1], fun x hx => ?_, by simpa using h3⟩
    simp only [List.mem_append, List.mem_singleton] at hx
    rcases hx with hx | rfl
    · exact h2 x hx
    · exact hs
  · exact h

theorem findServiceToken_lower :
    ∀ l r : List Char, findServiceToken l = some r →
      ∃ c cs, r = c :: cs ∧ isLowerAZ c = true := by
  intro l
  induction l with
  | nil => intro r h; simp [findServiceToken] at h
  | cons c cs ih =>
    intro r h
    unfold findServiceToken at h
    by_cases hc : isLowerAZ c = true
    · rw [if_pos hc] at h
      dsimp only at h
      split at h
      · obtain rfl : List.takeWhile isTokChar (c :: cs) = r := by injection h
        refine ⟨c, cs.takeWhile isTokChar, ?_, hc⟩
        simp [List.takeWhile_cons, isTokChar, hc]
      · exact ih r h
    · rw [if_neg hc] at h
      exact ih r h

theorem sysRegexUpd_inv {a : LogAnalysis} (ll : List Char) (h : Inv a) :
    Inv (sysRegexUpd a ll) := by
  unfold sysRegexUpd
  cases heq : findServiceToken ll with
  | none => exact h
  | some run =>
    obtain ⟨c, cs, hrun, hc⟩ := findServiceToken_lower ll run heq
    exact pushService_inv h (Or.inl ⟨c, cs, by simp [hrun], hc⟩)

theorem knownStep_inv {a : LogAnalysis} {name : String} (ll : List Char)
    (h : Inv a) (hname : GoodName name) : Inv (knownStep ll a name) := by
  unfold knownStep; split
  · obtain ⟨h1, h2, h3⟩ := h
    refine ⟨by simp [h1], fun x hx => ?_, by simpa using h3⟩
    simp only [List.mem_append, List.mem_singleton] at hx
    rcases hx with hx | rfl
    · exact h2 x hx
    · exact hname
  · exact h

theorem foldl_knownStep_inv (ll : List Char) :
    ∀ (l : List String), (∀ n ∈ l, GoodName n) → ∀ {a : LogAnalysis}, Inv a →
      Inv (l.foldl (knownStep ll) a)
  | [], _, _, h => h
  | n :: l, hl, _, h =>
    foldl_knownStep_inv ll l (fun m hm => hl m (List.mem_cons_of_mem n hm))
      (knownStep_inv ll h (hl n (List.mem_cons_self n l)))

theorem sysKnownUpd_inv {a : LogAnalysis} (ll : List Char) (h : Inv a) :
    Inv (sysKnownUpd a ll) :=
  foldl_knownStep_inv ll known_services (fun _ hn => Or.inr hn) h

theorem sysUpdates_inv {a : LogAnalysis} (ll : List Char) (h : Inv a) :
    Inv (sysUpdates a ll) :=
  sysKnownUpd_inv ll (sysRegexUpd_inv ll (sysRestartUpd_inv ll
    (sysKernUpd_inv ll (sysSegfUpd_inv ll (sysPermUpd_inv ll h)))))

theorem processLine_inv {st : LoopState} (line : List Char) (h : Inv st.a) :
    Inv (processLine st line).a := by
  unfold processLine
  dsimp only
  split
  · exact h
  split
  · exact h
  split
  · exact h
  split
  · split
    · exact sysUpdates_inv _ (authUpdates_inv _ h)
    · exact sysUpdates_inv _ h
  · split
    · exact authUpdates_inv _ h
    · exact h

theorem foldl_processLine_inv :
    ∀ (lines : List (List Char)) (st : LoopState), Inv st.a →
      Inv ((lines.foldl processLine st).a)
  | [], _, h => h
  | line :: lines, st, h =>
    foldl_processLine_inv lines (processLine st line) (processLine_inv line h)

/-- The analyzer invariant holds of every result of `analyze`. -/
theorem analyze_inv (log_text : String) : Inv (analyze log_text) := by
  unfold analyze
  split
  · exact emptyAnalysis_inv
  · obtain ⟨h1, h2, h3⟩ :=
      foldl_processLine_inv (splitOnChar '\n' log_text.data) ⟨false, false, emptyAnalysis⟩
        emptyAnalysis_inv
    refine ⟨by simpa using h1, fun s hs => ?_, by simpa using h3⟩
    simp only at hs
    rw [pySorted_mem, List.mem_dedup] at hs
    exact h2 s hs

/-- The final service-error list is strictly sorted. -/
theorem analyze_sorted (log_text : String) :
    (analyze log_text).service_errors.Sorted strLt := by
  unfold analyze
  split
  · exact List.sorted_nil
  · exact pySorted_sorted_lt _ (List.nodup_dedup _)

theorem goodName_not_numeric (s : String) (h : GoodName s) : isNumericToken s = false := by
  rcases h with ⟨c, cs, hd, hc⟩ | hk
  · simp only [isNumericToken, hd, List.all_cons, List.isEmpty_cons, Bool.not_false,
      Bool.true_and, Bool.and_eq_false_iff]
    left
    simp only [isLowerAZ, Bool.and_eq_true, decide_eq_true_eq] at hc
    simp only [isDigit09, Bool.and_eq_false_iff, decide_eq_false_iff_not]
    right; omega
  · have hall : ∀ s ∈ known_services, isNumericToken s = false := by decide
    exact hall s hk

end LogAnalyzer

/-! ### Helper lemmas for the scorer -/

namespace SeverityScorer

theorem foldl_sevWeight (l : List Finding) (s0 : Int) :
    l.foldl (fun s f => s + sevWeight f.severity) s0 =
      s0 + (l.map (fun f => sevWeight f.severity)).sum := by
  induction l generalizing s0 with
  | nil => simp
  | cons f l ih => simp [ih]; ring

theorem specWeight_nonneg (severity : String) : 0 ≤ specWeight severity := by
  unfold specWeight; split_ifs <;> norm_num

theorem logBonus_nonneg (la : LogAnalyzer.LogAnalysis) : 0 ≤ logBonus la := by
  unfold logBonus; split_ifs <;> norm_num

theorem le_foldr_max {l : List Nat} {a : Nat} (ha : a ∈ l) : a ≤ l.foldr max 0 := by
  induction l with
  | nil => cases ha
  | cons b l ih =>
    rcases List.mem_cons.mp ha with rfl | ha'
    · exact le_max_left _ _
    · exact le_trans (ih ha') (le_max_right _ _)

theorem foldr_max_le {l : List Nat} {n : Nat} (h : ∀ x ∈ l, x ≤ n) : l.foldr max 0 ≤ n := by
  induction l with
  | nil => exact Nat.zero_le n
  | cons b l ih =>
    exact max_le (h b (List.mem_cons_self b l)) (ih fun x hx => h x (List.mem_cons_of_mem b hx))

theorem filterMap_severities (fs : List Finding) (h : ∀ f ∈ fs, f.severity ≠ "") :
    fs.filterMap (fun f => if f.severity = "" then none else some f.severity) =
      fs.map (fun f => f.severity) := by
  induction fs with
  | nil => rfl
  | cons f fs ih =>
    rw [List.filterMap_cons]
    rw [if_neg (h f (List.mem_cons_self f fs))]
    rw [List.map_cons, ih fun g hg => h g (List.mem_cons_of_mem f hg)]

theorem sevRank_le_three (severity : String) : sevRank severity ≤ 3 := by
  unfold sevRank; split_ifs <;> norm_num

end SeverityScorer

/-! ### Helper lemmas for the recommendations engine -/

namespace RecommendationsEngine

theorem recStep_inv {st : List String × List String} (rec : String) (h : RecInv st) :
    RecInv (recStep st rec) := by
  unfold recStep; split
  · rename_i hr
    obtain ⟨hn, hm⟩ := h
    constructor
    · refine hn.append (List.nodup_singleton rec) ?_
      rw [List.disjoint_singleton]
      exact fun contra => hr.2 ((hm rec).mp contra)
    · intro r
      simp only [List.mem_append, List.mem_singleton, List.mem_cons, hm r]
      tauto
  · exact h

theorem foldl_recStep_inv :
    ∀ (l : List String) (st : List String × List String), RecInv st →
      RecInv (l.foldl recStep st)
  | [], _, h => h
  | r :: l, st, h => foldl_recStep_inv l (recStep st r) (recStep_inv r h)

theorem foldl_recStep_mono (l : List String) :
    ∀ (st : List String × List String) (r : String),
      r ∈ st.1 → r ∈ (l.foldl recStep st).1 := by
  induction l with
  | nil => exact fun _ _ h => h
  | cons x l ih =>
    intro st r h
    rw [List.foldl_cons]
    refine ih (recStep st x) r ?_
    unfold recStep; split
    · exact List.mem_append_left _ h
    · exact h

theorem foldl_recStep_mem :
    ∀ (l : List String) (st : List String × List String) (r : String),
      RecInv st → r ∈ l → r ≠ "" → r ∈ (l.foldl recStep st).1
  | [], _, r, _, hr, _ => absurd hr (List.not_mem_nil r)
  | x :: l, st, r, h, hr, hne => by
    rcases List.mem_cons.mp hr with rfl | hr'
    · rw [List.foldl_cons]
      refine foldl_recStep_mono l (recStep st r) r ?_
      unfold recStep; split
      · exact List.mem_append_right _ (List.mem_singleton_self r)
      · rename_i hcond
        have hseen : r ∈ st.2 := by
          by_contra hnot
          exact hcond ⟨hne, hnot⟩
        exact (h.2 r).mpr hseen
    · exact foldl_recStep_mem l _ r (recStep_inv x h) hr' hne

end RecommendationsEngine

/-! ### The claims -/

/-- C1: for every findings list carrying the four documented severity tags
and every log record, the risk score equals the sum of the per-finding
weights (CRITICAL=30, HIGH=15, MEDIUM=8, LOW=2) plus the log-derived
bonuses (+3 if failed logins are positive, +5 if the service-error list is
non-empty, +10 for kernel errors, +2 for auth warnings), clamped to
[0,100]; when the unclamped sum exceeds 100 the result is exactly 100. -/
theorem risk_score_clamped_sum (fs : List Finding) (la : LogAnalyzer.LogAnalysis)
    (h : ∀ f ∈ fs, f.severity = "CRITICAL" ∨ f.severity = "HIGH" ∨
         f.severity = "MEDIUM" ∨ f.severity = "LOW") :
    SeverityScorer.compute_risk_score fs (some la) =
      min ((fs.map (fun f => SeverityScorer.specWeight f.severity)).sum +
           SeverityScorer.logBonus la) 100 ∧
    (100 < (fs.map (fun f => SeverityScorer.specWeight f.severity)).sum +
        SeverityScorer.logBonus la →
      SeverityScorer.compute_risk_score fs (some la) = 100) ∧
    0 ≤ SeverityScorer.compute_risk_score fs (some la) ∧
    SeverityScorer.compute_risk_score fs (some la) ≤ 100 := by
  have hsum : 0 ≤ (fs.map (fun f => SeverityScorer.specWeight f.severity)).sum +
      SeverityScorer.logBonus la := by
    have := List.sum_nonneg (l := fs.map (fun f => SeverityScorer.specWeight f.severity))
      (by intro x hx
          obtain ⟨f, _, rfl⟩ := List.mem_map.mp hx
          exact SeverityScorer.specWeight_nonneg _)
    have := SeverityScorer.logBonus_nonneg la
    omega
  have hcode : SeverityScorer.compute_risk_score fs (some la) =
      min ((fs.map (fun f => SeverityScorer.specWeight f.severity)).sum +
           SeverityScorer.logBonus la) 100 := by
    have hmap : fs.map (fun f => SeverityScorer.sevWeight f.severity) =
        fs.map (fun f => SeverityScorer.specWeight f.severity) := by
      refine List.map_congr_left (fun f hf => ?_)
      rcases h f hf with h' | h' | h' | h' <;>
        simp [SeverityScorer.sevWeight, SeverityScorer.specWeight, h']
    unfold SeverityScorer.compute_risk_score
    dsimp only
    rw [SeverityScorer.foldl_sevWeight, hmap, zero_add]
    congr 1
    unfold SeverityScorer.logBonus
    simp only [gt_iff_lt, List.length_pos]
    split_ifs <;> omega
  refine ⟨hcode, fun hgt => ?_, ?_, ?_⟩
  · rw [hcode]; exact min_eq_right (le_of_lt hgt)
  · rw [hcode]; exact le_min_iff.mpr ⟨hsum, by norm_num⟩
  · rw [hcode]; exact min_le_right _ _

/-- Concrete clamp instance for the risk-score claim: four CRITICAL
findings and one kernel error sum to 130 unclamped, and the score is
exactly 100. -/
theorem risk_score_clamped_sum_wit :
    SeverityScorer.compute_risk_score
      [{ severity := "CRITICAL" }, { severity := "CRITICAL" },
       { severity := "CRITICAL" }, { severity := "CRITICAL" }]
      (some { LogAnalyzer.emptyAnalysis with kernel_errors := 1 }) = 100 := by
  have h := risk_score_clamped_sum
    [{ severity := "CRITICAL" }, { severity := "CRITICAL" },
     { severity := "CRITICAL" }, { severity := "CRITICAL" }]
    { LogAnalyzer.emptyAnalysis with kernel_errors := 1 } (by decide)
  exact h.2.1 (by decide)

/-- C4: the aggregate severity is the maximum severity of the findings
list under CRITICAL > HIGH > MEDIUM > LOW, the empty list aggregates to
LOW (never an absent value), and appending a CRITICAL finding to any list
makes the aggregate CRITICAL. -/
theorem overall_severity_is_max (fs : List Finding)
    (h : ∀ f ∈ fs, f.severity = "CRITICAL" ∨ f.severity = "HIGH" ∨
         f.severity = "MEDIUM" ∨ f.severity = "LOW") :
    SeverityScorer.compute_overall_severity fs =
      SeverityScorer.rankName (SeverityScorer.maxRank fs) ∧
    SeverityScorer.compute_overall_severity [] = "LOW" ∧
    ∀ gs : List Finding,
      SeverityScorer.compute_overall_severity (gs ++ [{ severity := "CRITICAL" }]) =
        "CRITICAL" := by
  refine ⟨?_, rfl, fun gs => ?_⟩
  · have hne : ∀ f ∈ fs, f.severity ≠ "" := by
      intro f hf
      rcases h f hf with h' | h' | h' | h' <;> simp [h']
    unfold SeverityScorer.compute_overall_severity SeverityScorer.maxRank
    dsimp only
    rw [SeverityScorer.filterMap_severities fs hne]
    by_cases hc : "CRITICAL" ∈ fs.map (fun f => f.severity)
    · rw [if_pos hc]
      obtain ⟨f, hf, hfc⟩ := List.mem_map.mp hc
      have h3 : (3 : Nat) ∈ fs.map (fun f => SeverityScorer.sevRank f.severity) :=
        List.mem_map.mpr ⟨f, hf, by simp [SeverityScorer.sevRank, hfc]⟩
      have hle : ∀ x ∈ fs.map (fun f => SeverityScorer.sevRank f.severity), x ≤ 3 := by
        intro x hx
        obtain ⟨g, _, rfl⟩ := List.mem_map.mp hx
        exact SeverityScorer.sevRank_le_three _
      rw [le_antisymm (SeverityScorer.foldr_max_le hle) (SeverityScorer.le_foldr_max h3)]
      rfl
    · rw [if_neg hc]
      have hnc : ∀ f ∈ fs, f.severity ≠ "CRITICAL" := by
        intro f hf heq
        exact hc (List.mem_map.mpr ⟨f, hf, heq⟩)
      by_cases hh : "HIGH" ∈ fs.map (fun f => f.severity)
      · rw [if_pos hh]
        obtain ⟨f, hf, hfc⟩ := List.mem_map.mp hh
        have h2 : (2 : Nat) ∈ fs.map (fun f => SeverityScorer.sevRank f.severity) :=
          List.mem_map.mpr ⟨f, hf, by simp [SeverityScorer.sevRank, hfc]⟩
        have hle : ∀ x ∈ fs.map (fun f => SeverityScorer.sevRank f.severity), x ≤ 2 := by
          intro x hx
          obtain ⟨g, hg, rfl⟩ := List.mem_map.mp hx
          simp [SeverityScorer.sevRank, hnc g hg]
          split_ifs <;> norm_num
        rw [le_antisymm (SeverityScorer.foldr_max_le hle) (SeverityScorer.le_foldr_max h2)]
        rfl
      · rw [if_neg hh]
        have hnh : ∀ f ∈ fs, f.severity ≠ "HIGH" := by
          intro f hf heq
          exact hh (List.mem_map.mpr ⟨f, hf, heq⟩)
        by_cases hm : "MEDIUM" ∈ fs.map (fun f => f.severity)
        · rw [if_pos hm]
          obtain ⟨f, hf, hfc⟩ := List.mem_map.mp hm
          have h1 : (1 : Nat) ∈ fs.map (fun f => SeverityScorer.sevRank f.severity) :=
            List.mem_map.mpr ⟨f, hf, by simp [SeverityScorer.sevRank, hfc]⟩
          have hle : ∀ x ∈ fs.map (fun f => SeverityScorer.sevRank f.severity), x ≤ 1 := by
            intro x hx
            obtain ⟨g, hg, rfl⟩ := List.mem_map.mp hx
            simp [SeverityScorer.sevRank, hnc g hg, hnh g hg]
            split_ifs <;> norm_num
          rw [le_antisymm
            (SeverityScorer.foldr_max_le hle) (SeverityScorer.le_foldr_max h1)]
          rfl
        · rw [if_neg hm]
          have hnm : ∀ f ∈ fs, f.severity ≠ "MEDIUM" := by
            intro f hf heq
            exact hm (List.mem_map.mpr ⟨f, hf, heq⟩)
          have hze : ∀ x ∈ fs.map (fun f => SeverityScorer.sevRank f.severity), x ≤ 0 := by
            intro x hx
            obtain ⟨g, hg, rfl⟩ := List.mem_map.mp hx
            rcases h g hg with h' | h' | h' | h'
            · exact absurd h' (hnc g hg)
            · exact absurd h' (hnh g hg)
            · exact absurd h' (hnm g hg)
            · simp [SeverityScorer.sevRank, h']
          rw [Nat.le_zero.mp (SeverityScorer.foldr_max_le hze)]
          rw [ite_self]
          rfl
  · unfold SeverityScorer.compute_overall_severity
    dsimp only
    rw [if_pos ?_]
    rw [List.filterMap_append]
    refine List.mem_append_right _ ?_
    simp

/-- Concrete instance for the aggregate-severity claim: a LOW and a HIGH
finding aggregate to the maximum, and appending a CRITICAL finding to a
LOW-only list yields CRITICAL. -/
theorem overall_severity_is_max_wit :
    SeverityScorer.compute_overall_severity
        [{ severity := "LOW" }, { severity := "HIGH" }] =
      SeverityScorer.rankName
        (SeverityScorer.maxRank [{ severity := "LOW" }, { severity := "HIGH" }]) ∧
    SeverityScorer.compute_overall_severity
      ([{ severity := "LOW" }] ++ [{ severity := "CRITICAL" }]) = "CRITICAL" := by
  have h := overall_severity_is_max [{ severity := "LOW" }, { severity := "HIGH" }] (by decide)
  exact ⟨h.1, h.2.2 [{ severity := "LOW" }]⟩

/-- C9: for every findings list (the empty list included), `generate` with
the default baseline-inclusion flag returns a non-empty, duplicate-free
list of recommendation strings that contains each fixed baseline
recommendation. -/
theorem generate_nonempty_nodup_baseline (fs : List Finding) :
    RecommendationsEngine.generate fs true ≠ [] ∧
    (RecommendationsEngine.generate fs true).Nodup ∧
    ∀ r ∈ RecommendationsEngine.baseline_recs,
      r ∈ RecommendationsEngine.generate fs true := by
  unfold RecommendationsEngine.generate
  dsimp only
  rw [if_pos rfl]
  have h1 : RecommendationsEngine.RecInv
      (fs.foldl (fun st f => RecommendationsEngine.recStep st
        (RecommendationsEngine.findingRec f)) ([], [])) := by
    rw [← List.foldl_map]
    exact RecommendationsEngine.foldl_recStep_inv _ _ ⟨List.nodup_nil, by simp⟩
  have h2 := RecommendationsEngine.foldl_recStep_inv RecommendationsEngine.baseline_recs _ h1
  have hne : ∀ r ∈ RecommendationsEngine.baseline_recs, r ≠ "" := by decide
  have hmem : ∀ r ∈ RecommendationsEngine.baseline_recs,
      r ∈ (RecommendationsEngine.baseline_recs.foldl RecommendationsEngine.recStep
        (fs.foldl (fun st f => RecommendationsEngine.recStep st
          (RecommendationsEngine.findingRec f)) ([], []))).1 :=
    fun r hr => RecommendationsEngine.foldl_recStep_mem _ _ r h1 hr (hne r hr)
  refine ⟨?_, h2.1, hmem⟩
  exact List.ne_nil_of_mem
    (hmem "Schedule periodic audits using cron for continuous monitoring" (by decide))

/-- C3: the end-to-end scenario with health 95/50/40, SSH root login
enabled and password auth disabled, and empty log text yields exactly the
findings [CPU CRITICAL, SSH-root HIGH] in that order, aggregate severity
CRITICAL, and risk score 45. -/
theorem end_to_end_cpu_critical_ssh_root :
    (SeverityScorer.score_health ⟨95, 50, 40⟩ ++
       SeverityScorer.score_security ⟨some "yes", some "no"⟩ ++
       SeverityScorer.score_logs (LogAnalyzer.analyze "")) =
      [{ severity := "CRITICAL", metric := some "CPU", value := some (.num 95) },
       { severity := "HIGH", metric := some "SSH Root Login", value := some (.str "Enabled") }] ∧
    SeverityScorer.compute_overall_severity
      (SeverityScorer.score_health ⟨95, 50, 40⟩ ++
       SeverityScorer.score_security ⟨some "yes", some "no"⟩ ++
       SeverityScorer.score_logs (LogAnalyzer.analyze "")) = "CRITICAL" ∧
    SeverityScorer.compute_risk_score
      (SeverityScorer.score_health ⟨95, 50, 40⟩ ++
       SeverityScorer.score_security ⟨some "yes", some "no"⟩ ++
       SeverityScorer.score_logs (LogAnalyzer.analyze ""))
      (some (LogAnalyzer.analyze "")) = 45 := by
  decide

/-- C5: comparing against a name absent from the baseline store yields the
typed not-found result carrying exactly that name, and nothing of a drift
record; `compare` only reads the store, so the store is untouched. -/
theorem compare_missing_baseline_not_found (store : BaselineManager.Store)
    (current : BaselineManager.SystemData) (name ts : String)
    (h : BaselineManager.load store name = none) :
    BaselineManager.compare store current name ts =
      .error ("Baseline '" ++ name ++ "' not found") := by
  unfold BaselineManager.compare; rw [h]

/-- Concrete instance of the not-found claim on the empty store. -/
theorem compare_missing_baseline_not_found_wit :
    BaselineManager.load ([] : BaselineManager.Store) "nope" = none ∧
    BaselineManager.compare ([] : BaselineManager.Store)
        ⟨⟨10, 20, 30⟩, 1, "svc", 1, ⟨some "no", some "no"⟩⟩ "nope" "t1" =
      .error ("Baseline '" ++ "nope" ++ "' not found") :=
  ⟨rfl, compare_missing_baseline_not_found []
    ⟨⟨10, 20, 30⟩, 1, "svc", 1, ⟨some "no", some "no"⟩⟩ "nope" "t1" rfl⟩

/-- C2: against a stored baseline, the drift change list is exactly the
concatenation, in the fixed order CPU, Memory, Disk, new services, removed
services, user count, of: a CPU resource spike iff the absolute CPU
difference exceeds 10; the same for memory; a disk-growth entry iff the
disk usage grew by more than 5 points (never on a decrease); a
new-services entry iff current minus baseline services is non-empty; a
removed-services entry iff baseline minus current is non-empty; and a
user-count entry iff the logged-in counts differ exactly. -/
theorem compare_change_list_ordered (store : BaselineManager.Store)
    (current : BaselineManager.SystemData) (name ts : String)
    (b : BaselineManager.Baseline) (h : BaselineManager.load store name = some b) :
    BaselineManager.compare store current name ts = .ok
      { baseline_name := name
        baseline_timestamp := b.timestamp
        comparison_timestamp := ts
        changes :=
          (if pyAbs (current.health.cpu_usage - b.cpu_usage) > 10 then
             [.resourceSpike "CPU" b.cpu_usage current.health.cpu_usage
                (current.health.cpu_usage - b.cpu_usage)]
           else []) ++
          (if pyAbs (current.health.memory_usage - b.memory_usage) > 10 then
             [.resourceSpike "Memory" b.memory_usage current.health.memory_usage
                (current.health.memory_usage - b.memory_usage)]
           else []) ++
          (if current.health.disk_usage > b.disk_usage + 5 then
             [.diskGrowth b.disk_usage current.health.disk_usage
                (current.health.disk_usage - b.disk_usage)]
           else []) ++
          (if (BaselineManager.splitServices current.active_services).toFinset \
                b.active_services.toFinset ≠ ∅ then
             [.newServices ((BaselineManager.splitServices current.active_services).toFinset \
                b.active_services.toFinset)]
           else []) ++
          (if b.active_services.toFinset \
                (BaselineManager.splitServices current.active_services).toFinset ≠ ∅ then
             [.removedServices (b.active_services.toFinset \
                (BaselineManager.splitServices current.active_services).toFinset)]
           else []) ++
          (if current.logged_in_count ≠ b.logged_in_count then
             [.userCountChange b.logged_in_count current.logged_in_count]
           else []) } := by
  unfold BaselineManager.compare
  rw [h]
  dsimp only
  split_ifs <;> rfl

/-- Concrete drift comparison: CPU spikes by 20, memory moves only 5, disk
grows by 6, one service appears and one disappears, and the user count
changes: the change list holds exactly those five entries in order. -/
theorem compare_change_list_ordered_wit :
    BaselineManager.load
        [("baseline_b", ⟨"t0", "baseline_b", 50, 50, 80, 2, ["a", "b"], 1, "no", "no"⟩)]
        "baseline_b" =
      some ⟨"t0", "baseline_b", 50, 50, 80, 2, ["a", "b"], 1, "no", "no"⟩ ∧
    BaselineManager.compare
        [("baseline_b", ⟨"t0", "baseline_b", 50, 50, 80, 2, ["a", "b"], 1, "no", "no"⟩)]
        ⟨⟨70, 55, 86⟩, 2, "a,c", 3, ⟨none, none⟩⟩ "baseline_b" "t1" =
      .ok { baseline_name := "baseline_b", baseline_timestamp := "t0",
            comparison_timestamp := "t1",
            changes := [.resourceSpike "CPU" 50 70 20,
                        .diskGrowth 80 86 6,
                        .newServices {"c"},
                        .removedServices {"b"},
                        .userCountChange 1 3] } := by
  constructor
  · rfl
  · have h := compare_change_list_ordered
      [("baseline_b", ⟨"t0", "baseline_b", 50, 50, 80, 2, ["a", "b"], 1, "no", "no"⟩)]
      ⟨⟨70, 55, 86⟩, 2, "a,c", 3, ⟨none, none⟩⟩ "baseline_b" "t1"
      ⟨"t0", "baseline_b", 50, 50, 80, 2, ["a", "b"], 1, "no", "no"⟩ rfl
    rw [h]
    have c1 : pyAbs ((70:ℚ) - 50) > 10 := by unfold pyAbs; norm_num
    have c2 : ¬ (pyAbs ((55:ℚ) - 50) > 10) := by unfold pyAbs; norm_num
    have c3 : (86:ℚ) > 80 + 5 := by norm_num
    rw [show ((70:ℚ) - 50) = 20 by norm_num] at c1 ⊢
    rw [show ((86:ℚ) - 80) = 6 by norm_num]
    rw [if_pos c1, if_neg c2, if_pos c3, if_pos (by decide), if_pos (by decide),
        if_pos (by decide)]
    simp only [List.nil_append, List.append_nil, List.cons_append, List.singleton_append]
    norm_num
    decide

/-- The two authentication counters can never differ: they are incremented
only together, so no log text separates them (refuting the claimed
existence of a separating text). -/
theorem counters_never_differ :
    ¬ ∃ t : String, (LogAnalyzer.analyze t).failed_ssh_logins ≠
        (LogAnalyzer.analyze t).authentication_failures :=
  fun ⟨t, ht⟩ => ht (LogAnalyzer.analyze_inv t).1

/-- C6 (amended): for every log text the extractor's `failed_ssh_logins`
and `authentication_failures` counters are equal (they increment only
together on the failed-password/authentication-failure match), and a line
matching only "permission denied" increments neither counter while
incrementing `permission_denied`. -/
theorem counters_lockstep_permission_denied_neutral :
    (∀ t : String, (LogAnalyzer.analyze t).failed_ssh_logins =
        (LogAnalyzer.analyze t).authentication_failures) ∧
    (LogAnalyzer.analyze "AUTHENTICATION LOG\nsshd: permission denied").failed_ssh_logins
      = 0 ∧
    (LogAnalyzer.analyze
        "AUTHENTICATION LOG\nsshd: permission denied").authentication_failures = 0 ∧
    (LogAnalyzer.analyze "AUTHENTICATION LOG\nsshd: permission denied").permission_denied
      = 1 :=
  ⟨fun t => (LogAnalyzer.analyze_inv t).1, by decide, by decide, by decide⟩

/-- C8: for every log text the returned service-error list is strictly
increasing in code-point lexicographic order (hence duplicate-free), none
of its elements is a pure numeric token, and every counter of the returned
record is non-negative. -/
theorem analyze_output_invariants (log_text : String) :
    (LogAnalyzer.analyze log_text).service_errors.Sorted strLt ∧
    (∀ s ∈ (LogAnalyzer.analyze log_text).service_errors,
      LogAnalyzer.isNumericToken s = false) ∧
    0 ≤ (LogAnalyzer.analyze log_text).failed_ssh_logins ∧
    0 ≤ (LogAnalyzer.analyze log_text).authentication_failures ∧
    0 ≤ (LogAnalyzer.analyze log_text).auth_warnings ∧
    0 ≤ (LogAnalyzer.analyze log_text).permission_denied ∧
    0 ≤ (LogAnalyzer.analyze log_text).segfaults ∧
    0 ≤ (LogAnalyzer.analyze log_text).kernel_errors ∧
    0 ≤ (LogAnalyzer.analyze log_text).sudo_misuse ∧
    0 ≤ (LogAnalyzer.analyze log_text).service_restarts := by
  obtain ⟨h1, h2, h3⟩ := LogAnalyzer.analyze_inv log_text
  exact ⟨LogAnalyzer.analyze_sorted log_text,
         fun s hs => LogAnalyzer.goodName_not_numeric s (h2 s hs), h3⟩

/-- A baseline saved under a name that does not start with `baseline_` is
not enumerated by the listing (refuting the claim that saving under an
arbitrary name suffices for it to be listed). -/
theorem list_baselines_misses_unprefixed_name :
    "server1" ∉ BaselineManager.list_baselines
      (BaselineManager.save [] ⟨⟨10, 20, 30⟩, 1, "svc", 1, ⟨some "no", some "no"⟩⟩
        "server1" "t0") := by
  decide

/-- C7 (amended): the listing enumerates exactly the saved stems matching
the `baseline_*.json` glob: after saving under a name, the list contains
that name if and only if it starts with `baseline_` (in particular every
auto-generated name is listed and a name without the prefix is not); and
a baseline saved under any name, prefixed or not, is persisted and
loadable under that name. -/
theorem save_prefixed_name_listed (store : BaselineManager.Store)
    (data : BaselineManager.SystemData) (name ts : String) :
    (name ∈ BaselineManager.list_baselines (BaselineManager.save store data name ts) ↔
      "baseline_".data.isPrefixOf name.data = true) ∧
    BaselineManager.load (BaselineManager.save store data name ts) name =
      some (BaselineManager.mkBaseline data name ts) := by
  refine ⟨⟨fun hmem => ?_, fun h => ?_⟩, ?_⟩
  · unfold BaselineManager.list_baselines at hmem
    rw [pySorted_mem] at hmem
    exact (List.mem_filter.mp hmem).2
  · unfold BaselineManager.list_baselines BaselineManager.save
    rw [pySorted_mem]
    refine List.mem_filter.mpr ⟨?_, h⟩
    exact List.mem_map.mpr
      ⟨(name, BaselineManager.mkBaseline data name ts), List.mem_cons_self _ _, rfl⟩
  · unfold BaselineManager.load BaselineManager.save
    simp [List.lookup]

/-- Concrete instance: a baseline saved as `baseline_web` is listed and
loadable; one saved as `server1` is loadable although not listed. -/
theorem save_prefixed_name_listed_wit :
    "baseline_web" ∈ BaselineManager.list_baselines
      (BaselineManager.save [] ⟨⟨10, 20, 30⟩, 1, "svc", 1, ⟨some "no", some "no"⟩⟩
        "baseline_web" "t0") ∧
    BaselineManager.load
        (BaselineManager.save [] ⟨⟨10, 20, 30⟩, 1, "svc", 1, ⟨some "no", some "no"⟩⟩
          "baseline_web" "t0") "baseline_web" =
      some (BaselineManager.mkBaseline
        ⟨⟨10, 20, 30⟩, 1, "svc", 1, ⟨some "no", some "no"⟩⟩ "baseline_web" "t0") ∧
    BaselineManager.load
        (BaselineManager.save [] ⟨⟨10, 20, 30⟩, 1, "svc", 1, ⟨some "no", some "no"⟩⟩
          "server1" "t0") "server1" =
      some (BaselineManager.mkBaseline
        ⟨⟨10, 20, 30⟩, 1, "svc", 1, ⟨some "no", some "no"⟩⟩ "server1" "t0") :=
  ⟨(save_prefixed_name_listed [] ⟨⟨10, 20, 30⟩, 1, "svc", 1, ⟨some "no", some "no"⟩⟩
      "baseline_web" "t0").1.mpr (by decide),
   (save_prefixed_name_listed [] ⟨⟨10, 20, 30⟩, 1, "svc", 1, ⟨some "no", some "no"⟩⟩
      "baseline_web" "t0").2,
   (save_prefixed_name_listed [] ⟨⟨10, 20, 30⟩, 1, "svc", 1, ⟨some "no", some "no"⟩⟩
      "server1" "t0").2⟩

/-- C10: the security scoring of both the scorer and the security module
fires only on the exact string "yes": with `root_login_enabled` equal to
"no", "unknown" or absent, no root-login finding is produced; likewise for
`password_auth_enabled`; and with both keys non-"yes" both functions
return no findings at all and contribute nothing to the risk score. -/
theorem security_findings_only_on_yes (cfg : SshConfig) :
    ((cfg.root_login_enabled = some "no" ∨ cfg.root_login_enabled = some "unknown" ∨
        cfg.root_login_enabled = none) →
      (∀ f ∈ SeverityScorer.score_security cfg, f.metric ≠ some "SSH Root Login") ∧
      (∀ f ∈ SecurityCollector.analyze_ssh_risks cfg,
        f.title ≠ some "SSH Root Login Enabled")) ∧
    ((cfg.password_auth_enabled = some "no" ∨ cfg.password_auth_enabled = some "unknown" ∨
        cfg.password_auth_enabled = none) →
      (∀ f ∈ SeverityScorer.score_security cfg, f.metric ≠ some "SSH Password Auth") ∧
      (∀ f ∈ SecurityCollector.analyze_ssh_risks cfg,
        f.title ≠ some "SSH Password Authentication Enabled")) ∧
    (((cfg.root_login_enabled = some "no" ∨ cfg.root_login_enabled = some "unknown" ∨
         cfg.root_login_enabled = none) ∧
      (cfg.password_auth_enabled = some "no" ∨ cfg.password_auth_enabled = some "unknown" ∨
         cfg.password_auth_enabled = none)) →
      SeverityScorer.score_security cfg = [] ∧
      SecurityCollector.analyze_ssh_risks cfg = [] ∧
      SeverityScorer.compute_risk_score (SeverityScorer.score_security cfg) none = 0) := by
  refine ⟨fun hr => ?_, fun hp => ?_, fun ⟨hr, hp⟩ => ?_⟩
  · have hr' : cfg.root_login_enabled ≠ some "yes" := by
      rcases hr with h | h | h <;> simp [h]
    constructor
    · intro f hf
      unfold SeverityScorer.score_security at hf
      rw [if_neg hr', List.nil_append] at hf
      split_ifs at hf
      · rw [List.mem_singleton] at hf
        subst hf; simp
      · simp at hf
    · intro f hf
      unfold SecurityCollector.analyze_ssh_risks at hf
      rw [if_neg hr', List.nil_append] at hf
      split_ifs at hf
      · rw [List.mem_singleton] at hf
        subst hf; simp
      · simp at hf
  · have hp' : cfg.password_auth_enabled ≠ some "yes" := by
      rcases hp with h | h | h <;> simp [h]
    constructor
    · intro f hf
      unfold SeverityScorer.score_security at hf
      rw [if_neg hp', List.append_nil] at hf
      split_ifs at hf
      · rw [List.mem_singleton] at hf
        subst hf; simp
      · simp at hf
    · intro f hf
      unfold SecurityCollector.analyze_ssh_risks at hf
      rw [if_neg hp', List.append_nil] at hf
      split_ifs at hf
      · rw [List.mem_singleton] at hf
        subst hf; simp
      · simp at hf
  · have hr' : cfg.root_login_enabled ≠ some "yes" := by
      rcases hr with h | h | h <;> simp [h]
    have hp' : cfg.password_auth_enabled ≠ some "yes" := by
      rcases hp with h | h | h <;> simp [h]
    have he : SeverityScorer.score_security cfg = [] := by
      unfold SeverityScorer.score_security
      rw [if_neg hr', if_neg hp', List.nil_append]
    have he2 : SecurityCollector.analyze_ssh_risks cfg = [] := by
      unfold SecurityCollector.analyze_ssh_risks
      rw [if_neg hr', if_neg hp', List.nil_append]
    exact ⟨he, he2, by rw [he]; decide⟩

/-- Concrete instance: with root login "no" and password auth "unknown",
both security analyses return no findings and the risk contribution is
zero. -/
theorem security_findings_only_on_yes_wit :
    SeverityScorer.score_security ⟨some "no", some "unknown"⟩ = [] ∧
    SecurityCollector.analyze_ssh_risks ⟨some "no", some "unknown"⟩ = [] ∧
    SeverityScorer.compute_risk_score
      (SeverityScorer.score_security ⟨some "no", some "unknown"⟩) none = 0 :=
  (security_findings_only_on_yes ⟨some "no", some "unknown"⟩).2.2
    ⟨Or.inl rfl, Or.inr (Or.inl rfl)⟩

end SNA
